import Mathlib

/-!
Verification of the pyMAPPINGS input-model core
(`pyMAPPINGS/core/mappings_model.py`, class `InputModel`).

Shallow embedding conventions:
* The mutable `InputModel` object is a `Config` record; every setter is a
  function `... → Config × Option Err` returning the post-call state and the
  raised exception, if any (in Python the object keeps any mutations performed
  before a `raise`, so the state is returned even on failure).
* The filesystem visible to `os.path.exists`, `open` and `write` is an explicit
  `FileSys` value threaded through the functions that touch it.
* Python numbers passed to setters are rationals; `float`-specific artefacts
  (binary rounding of non-representable decimals, `int` versus `float` display)
  are outside the model, which only ever evaluates these printers on short
  exactly-representable decimals.
* `f"{x:.2f}"` / `f"{x:.4f}"` are `fmtFixed 2` / `fmtFixed 4` (round half to
  even); `str` on a float is `ratRepr`; `str` on an int is `pyIntStr`.
* Raising `ValueError` / `TypeError` / `FileNotFoundError` / `KeyError` /
  `IOError` is returning the corresponding `Err`.
-/

namespace PyMappings

/-- The float `0.3`, in reduced-constructor form so the kernel can project its
numerator and denominator. -/
def pah_default : ℚ := ⟨3, 10, by decide, by decide⟩

inductive Err where
  | valueError (msg : String)
  | typeError (msg : String)
  | fileNotFound (msg : String)
  | keyError (key : String)
  | ioError (msg : String)
deriving DecidableEq

/-- Fuel-bounded little-endian base-10 digits; with fuel `≥ n` it agrees with
`Nat.digits 10 n` (proved below) while staying kernel-reducible. -/
def digitsFuel : Nat → Nat → List Nat
  | 0, _ => []
  | fuel + 1, n => if n = 0 then [] else n % 10 :: digitsFuel fuel (n / 10)

/-- Decimal rendering of a natural number, modelling Python `str` on a
non-negative `int`. -/
def pyNatStr (n : Nat) : String :=
  if n = 0 then "0" else ((digitsFuel n n).reverse.map Nat.digitChar).asString

/-- Decimal rendering of an integer, modelling Python `str` on an `int`. -/
def pyIntStr : Int → String
  | .ofNat n => pyNatStr n
  | .negSucc n => "-" ++ pyNatStr (n + 1)

/-- Fuel-bounded decimal digits of the fraction `r / b` with `0 ≤ r < b`
(numerator/denominator arithmetic, so the kernel can evaluate it). -/
def fracDigits : Nat → Nat → Nat → List Nat
  | 0, _, _ => []
  | fuel + 1, r, b =>
    if r = 0 then [] else r * 10 / b :: fracDigits fuel (r * 10 % b) b

/-- Display form of a Python float, modelling `str(x)` for the short terminating
decimals the library actually stores (e.g. `str(0.3) = "0.3"`,
`str(1.0) = "1.0"`). -/
def ratRepr (q : ℚ) : String :=
  let sign := if q.num < 0 then "-" else ""
  let a := q.num.natAbs
  let ds := fracDigits 17 (a % q.den) q.den
  let fracStr := if ds = [] then "0" else (ds.map Nat.digitChar).asString
  sign ++ pyNatStr (a / q.den) ++ "." ++ fracStr

/-- Nearest integer to `a / b` (`b > 0`), ties to even, as CPython uses when
formatting. -/
def roundHalfEvenFrac (a : Int) (b : Nat) : Int :=
  let f := a.fdiv b
  let r2 := 2 * (a - f * b)
  if r2 < b then f
  else if (b : Int) < r2 then f + 1
  else if f % 2 = 0 then f else f + 1

def padZeros (n : Nat) (s : String) : String :=
  ⟨List.replicate (n - s.length) '0' ++ s.data⟩

/-- Fixed-point formatting with `nd` decimals, modelling `f"\x7bx:.2f\x7d"` and
`f"\x7bx:.4f\x7d"` on the rational value. -/
def fmtFixed (nd : Nat) (x : ℚ) : String :=
  let m := roundHalfEvenFrac (x.num * 10 ^ nd) x.den
  let sign := if m < 0 then "-" else ""
  let a := m.natAbs
  sign ++ pyNatStr (a / 10 ^ nd) ++ "." ++ padZeros nd (pyNatStr (a % 10 ^ nd))

/-- State of one `InputModel` instance: every `self._*` attribute set by
`init_params`, plus the model name. -/
structure Config where
  model_name : String
  abund : Option String
  depl : Option String
  spec : Option String
  age_index : Int
  geometry : String
  pressure : String
  temperature : String
  filling_factor : String
  logq : String
  step_size : String
  luminosity : String
  output_path : Option String
  include_dust : Bool
  dust_depl_path : Option String
  pah_fraction : ℚ
  pah_switch_value : String
  eval_dust_temp : Bool
  graphite_cospatial : Bool
  allow_grain_destruction : Bool
  grain_distribution : String
deriving DecidableEq

/-- `InputModel.init_params` defaults (the constructor state for a validated,
non-empty model name). -/
def init_params (model_name : String) : Config where
  model_name := model_name
  abund := none
  depl := none
  spec := none
  age_index := 9
  geometry := "S"
  pressure := "6.00"
  temperature := "4.00"
  filling_factor := "1.0"
  logq := "8.00"
  step_size := "0.0200"
  luminosity := "40.00"
  output_path := none
  include_dust := true
  dust_depl_path := none
  pah_fraction := pah_default
  pah_switch_value := "4e2"
  eval_dust_temp := false
  graphite_cospatial := false
  allow_grain_destruction := false
  grain_distribution := "M"

/-- Filesystem as seen through `os.path.exists` / `open(..., "w")`. -/
structure FileSys where
  dirs : List String
  files : List (String × String)
deriving DecidableEq

def emptyFS : FileSys := ⟨[], []⟩

def path_exists (fs : FileSys) (p : String) : Bool :=
  fs.dirs.contains p || (fs.files.map Prod.fst).contains p

def lookupFile (fs : FileSys) (p : String) : Option String :=
  (fs.files.find? (fun e => e.1 == p)).map Prod.snd

def writeFile (fs : FileSys) (p c : String) : FileSys :=
  { fs with files := (p, c) :: fs.files.filter (fun e => e.1 != p) }

/-- `os.path.dirname`: everything before the last slash. -/
def dirname (p : String) : String :=
  ⟨((p.data.reverse.dropWhile (fun c => c ≠ '/')).reverse).dropLast⟩

/-- The path is absolute (starts with a slash). -/
def pathIsAbs (s : String) : Bool :=
  match s.data with
  | [] => false
  | c :: _ => c = '/'

/-- `os.path.join` for a first component ending in a slash, as used with the
base directory: an absolute second component replaces the first. -/
def ospath_join (a b : String) : String :=
  if pathIsAbs b then b else a ++ b

/-- `set_abund`: the path must exist if given; then it is stored. -/
def set_abund (fs : FileSys) (cfg : Config) (path : Option String) :
    Config × Option Err :=
  match path with
  | none => ({ cfg with abund := none }, none)
  | some p =>
    if path_exists fs p then ({ cfg with abund := some p }, none)
    else (cfg, some (Err.fileNotFound ("Abundance file not found: " ++ p)))

/-- `set_depl`: the path must exist if given; then it is stored. -/
def set_depl (fs : FileSys) (cfg : Config) (path : Option String) :
    Config × Option Err :=
  match path with
  | none => ({ cfg with depl := none }, none)
  | some p =>
    if path_exists fs p then ({ cfg with depl := some p }, none)
    else (cfg, some (Err.fileNotFound ("Depletion file not found: " ++ p)))

/-- `set_spec`: the path must exist if given; then it is stored. -/
def set_spec (fs : FileSys) (cfg : Config) (path : Option String) :
    Config × Option Err :=
  match path with
  | none => ({ cfg with spec := none }, none)
  | some p =>
    if path_exists fs p then ({ cfg with spec := some p }, none)
    else (cfg, some (Err.fileNotFound ("Spectrum file not found: " ++ p)))

/-- Sequencing of the optional-parameter blocks inside `set_dust`: a raise
aborts the rest but keeps the state mutated so far. -/
def andThenE (r : Config × Option Err) (f : Config → Config × Option Err) :
    Config × Option Err :=
  match r with
  | (c, some e) => (c, some e)
  | (c, none) => f c

def step_depl (fs : FileSys) (depl_path : Option String) (cfg : Config) :
    Config × Option Err :=
  match depl_path with
  | none => (cfg, none)
  | some p =>
    if path_exists fs p then ({ cfg with dust_depl_path := some p }, none)
    else (cfg, some (Err.fileNotFound ("Dust depletion file not found: " ++ p)))

def step_pah (pah_fraction : Option ℚ) (cfg : Config) : Config × Option Err :=
  match pah_fraction with
  | none => (cfg, none)
  | some q =>
    -- `0 <= pah_fraction <= 1`, spelled on numerator and denominator (the
    -- denominator is positive, so this is the same predicate).
    if 0 ≤ q.num ∧ q.num ≤ (q.den : Int) then ({ cfg with pah_fraction := q }, none)
    else (cfg, some (Err.valueError "PAH fraction must be a number between 0 and 1"))

def step_flags (pah_switch_value : Option String) (eval_dust_temp : Option Bool)
    (graphite_cospatial : Option Bool) (allow_grain_destruction : Option Bool)
    (cfg : Config) : Config × Option Err :=
  let cfg := match pah_switch_value with
    | none => cfg
    | some v => { cfg with pah_switch_value := v }
  let cfg := match eval_dust_temp with
    | none => cfg
    | some b => { cfg with eval_dust_temp := b }
  let cfg := match graphite_cospatial with
    | none => cfg
    | some b => { cfg with graphite_cospatial := b }
  let cfg := match allow_grain_destruction with
    | none => cfg
    | some b => { cfg with allow_grain_destruction := b }
  (cfg, none)

/-- Python `str.upper` over the code points (ASCII case map suffices for the
single-letter codes involved). -/
def pyUpper (s : String) : String := ⟨s.data.map Char.toUpper⟩

/-- Python `str.lower` over the code points. -/
def pyLower (s : String) : String := ⟨s.data.map Char.toLower⟩

def grain_msg : String :=
  "grain_distribution must be one of \x7b\x27M\x27, \x27P\x27, \x27S\x27\x7d (M=MRN, P=Powerlaw, S=Grain Shattering Profile)"

/-- Validation and storage of a grain-distribution code, shared by
`set_dust` and `set_grain_distribution` (identical code in the source). -/
def step_grain (grain_distribution : Option String) (cfg : Config) :
    Config × Option Err :=
  match grain_distribution with
  | none => (cfg, none)
  | some g =>
    if pyUpper g ∈ (["M", "P", "S"] : List String) then
      ({ cfg with grain_distribution := pyUpper g }, none)
    else (cfg, some (Err.valueError grain_msg))

/-- `set_dust`: assigns the dust flag, then checks the required-depletion-file
condition, then applies each provided optional parameter in source order. -/
def set_dust (fs : FileSys) (cfg : Config) (include_dust : Bool)
    (depl_path : Option String) (pah_fraction : Option ℚ)
    (pah_switch_value : Option String) (eval_dust_temp : Option Bool)
    (graphite_cospatial : Option Bool) (allow_grain_destruction : Option Bool)
    (grain_distribution : Option String) : Config × Option Err :=
  let cfg := { cfg with include_dust := include_dust }
  if include_dust && depl_path.isNone && cfg.dust_depl_path.isNone then
    (cfg, some (Err.valueError "Dust depletion file path is required when including dust"))
  else
    andThenE (andThenE (andThenE (step_depl fs depl_path cfg) (step_pah pah_fraction))
        (step_flags pah_switch_value eval_dust_temp graphite_cospatial
          allow_grain_destruction))
      (step_grain grain_distribution)

/-- `enable_dust`: `set_dust` with `include_dust=True`; the Python wrapper
forwards every parameter (its own defaults), so all are provided. -/
def enable_dust (fs : FileSys) (cfg : Config) (depl_path : String)
    (pah_fraction : ℚ) (pah_switch_value : String) (eval_dust_temp : Bool)
    (graphite_cospatial : Bool) (allow_grain_destruction : Bool)
    (grain_distribution : String) : Config × Option Err :=
  set_dust fs cfg true (some depl_path) (some pah_fraction)
    (some pah_switch_value) (some eval_dust_temp) (some graphite_cospatial)
    (some allow_grain_destruction) (some grain_distribution)

/-- `disable_dust`: `set_dust(False)` with every other parameter left `None`. -/
def disable_dust (fs : FileSys) (cfg : Config) : Config × Option Err :=
  set_dust fs cfg false none none none none none none none

def set_grain_destruction (cfg : Config) (allow : Bool) : Config × Option Err :=
  ({ cfg with allow_grain_destruction := allow }, none)

def set_grain_distribution (cfg : Config) (distribution : String) :
    Config × Option Err :=
  step_grain (some distribution) cfg

def set_age (cfg : Config) (index : Option Int) : Config × Option Err :=
  match index with
  | none => ({ cfg with age_index := 9 }, none)
  | some i =>
    if i < 0 then (cfg, some (Err.valueError "Age index must be non-negative"))
    else ({ cfg with age_index := i }, none)

def set_geometry (cfg : Config) (geo : Option String) : Config × Option Err :=
  match geo with
  | none => ({ cfg with geometry := "S" }, none)
  | some g =>
    if pyUpper g ∈ (["S", "P"] : List String) then
      ({ cfg with geometry := pyUpper g }, none)
    else
      (cfg, some (Err.valueError
        "Geometry must be \x27S\x27 (spherical) or \x27P\x27 (plane-parallel)"))

def set_pressure (cfg : Config) (logp : Option ℚ) : Config × Option Err :=
  ({ cfg with pressure := match logp with
      | some p => fmtFixed 2 p
      | none => "6.00" }, none)

def set_temperature (cfg : Config) (logTe : Option ℚ) : Config × Option Err :=
  ({ cfg with temperature := match logTe with
      | some t => fmtFixed 2 t
      | none => "4.00" }, none)

def set_filling_factor (cfg : Config) (ff : Option ℚ) : Config × Option Err :=
  ({ cfg with filling_factor := match ff with
      | some f => fmtFixed 2 f
      | none => "1.0" }, none)

def set_ionization_param (cfg : Config) (logq : Option ℚ) : Config × Option Err :=
  ({ cfg with logq := match logq with
      | some q => fmtFixed 2 q
      | none => "8.00" }, none)

/-- `set_step_size`: a provided value must be positive and is stored as
`f"\x7bstep:.4f\x7d"`; with no argument the literal `"0.02"` is stored. -/
def set_step_size (cfg : Config) (step : Option ℚ) : Config × Option Err :=
  match step with
  | none => ({ cfg with step_size := "0.02" }, none)
  | some s =>
    -- `step <= 0`, spelled on the numerator (the denominator is positive).
    if s.num ≤ 0 then (cfg, some (Err.valueError "Step size must be positive"))
    else ({ cfg with step_size := fmtFixed 4 s }, none)

def set_luminosity (cfg : Config) (logL : Option ℚ) : Config × Option Err :=
  ({ cfg with luminosity := match logL with
      | some l => fmtFixed 2 l
      | none => "40.00" }, none)

/-- Messages collected by `validate_params` over the three checked attributes,
in source order. -/
def validation_errors (fs : FileSys) (cfg : Config) : List String :=
  (match cfg.abund with
    | some p => if path_exists fs p then [] else ["Abundance file not found: " ++ p]
    | none => []) ++
  (match cfg.depl with
    | some p => if path_exists fs p then [] else ["Depletion file not found: " ++ p]
    | none => []) ++
  (match cfg.spec with
    | some p => if path_exists fs p then [] else ["Spectrum file not found: " ++ p]
    | none => [])

/-- `validate_params`: checks the abundance, depletion and spectrum paths
against the current filesystem and raises one aggregated `ValueError`. -/
def validate_params (fs : FileSys) (cfg : Config) : Except Err Bool :=
  let errors := validation_errors fs cfg
  if errors.isEmpty then .ok true
  else .error (Err.valueError
    ("Parameter validation failed:\n" ++ String.intercalate "\n" errors))

/-- `s.replace(".", "")`: drop every dot. -/
def removeDots (s : String) : String :=
  ⟨s.data.filter (fun c => c != '.')⟩

/-- `_generate_id_string`. -/
def generate_id_string (cfg : Config) : String :=
  let geo := if cfg.geometry = "S" then "SPH" else "PP"
  let age_str := "t" ++ pyIntStr cfg.age_index
  let pressure_str := "Pk" ++ cfg.pressure
  let logq_str := "Q" ++ removeDots cfg.logq
  geo ++ "_" ++ cfg.model_name ++ "_" ++ logq_str ++ "_" ++ pressure_str ++ "_" ++ age_str

/-- The `distribution_map` dict literal inside `_build_input_content`: only the
key `M` is present; subscripting with any other key raises `KeyError`. -/
def distribution_map (k : String) : Option String :=
  if k = "M" then some "M     : MRN distribution" else none

/-- Lines emitted before the dust block: abundance branch, the offsets line and
the include-dust gate line. -/
def pre_dust_lines (cfg : Config) : List String :=
  (match cfg.abund with
    | some a => ["yes   : change abundance", a, "no    : no more changes"]
    | none => ["no    : use default abundance"]) ++
  ["no    : no offsets",
   if cfg.include_dust then "yes   : include dust" else "no    : include dust"]

/-- The dust block of `_build_input_content`; note that the depletion
sub-branch reads `self._depl` (the gas-phase depletion file), appending a
backslash to the path, and that the grain-distribution lookup can raise
`KeyError`. -/
def dust_section (cfg : Config) : Except Err (List String) :=
  if cfg.include_dust then
    match distribution_map cfg.grain_distribution with
    | none => .error (Err.keyError cfg.grain_distribution)
    | some distLine =>
      .ok ((match cfg.depl with
          | some d => ["yes   : change depletions", d ++ "\\", "no    : no more changes"]
          | none => ["no    : use default depletions"]) ++
        [(if cfg.allow_grain_destruction then "yes   : allow grain destruction"
          else "no    : allow grain destruction"),
         distLine,
         "yes   : Include PAH molecules?",
         ratRepr cfg.pah_fraction ++ "   : fraction of Carbon Dust Depletion in PAHs",
         "Q     : PAH switch on QHDH < Value",
         cfg.pah_switch_value ++ "   : PAH switch on Value",
         (if cfg.graphite_cospatial then "yes   : graphite grains to be cospatial with PAHs"
          else "no    : graphite grains to be cospatial with PAHs"),
         (if cfg.eval_dust_temp then "yes   : Evaluate dust temperatures and IR flux?"
          else "no    : Evaluate dust temperatures and IR flux?")])
  else .ok []

/-- Lines emitted after the dust block: trailer, spectrum, age, source exit,
geometry, and the fixed closing sequence through `end model`. -/
def post_dust_lines (cfg : Config) (id_string : String) : List String :=
  ["P6    : the main Mappings model to use",
   "D     : Default ionisation values",
   "H     : Input spectral energy distribution data (usually Starburst99)"] ++
  [(match cfg.spec with
    | some s => s
    | none => "Q/inputs/cont_a05t23isp_vm802.spectrum  : default spectrum")] ++
  [pyIntStr cfg.age_index ++ "     : Age of the HII region. Age = (n-1)*0.5 Myr",
   "X     : eXit with current source",
   cfg.geometry ++ "     : " ++
     (if cfg.geometry = "S" then "Spherical Geometry" else "Plane parallel geometry") ++
     ". (For Plane parallel, \x27P\x27, different options)",
   "L     : Source by Luminosity",
   "T     : Total or Ionising Luminosity",
   cfg.luminosity ++ "    : bolometric source luminosity (log erg/s)",
   "B     : isoBaric, (const pressure)",
   cfg.pressure ++ " :  Pressure regime (p/k, <10 as log)",
   cfg.temperature ++ "     : log(Initial temperature)",
   cfg.filling_factor ++ "     : filling factor (0<f<=1)",
   "q     : Give initial radius in terms of distance or Q(N) (d/q) ***nb old  options",
   cfg.logq ++ " :   Q at inner radius (< 100 as log)",
   "y     : Volume integration over the whole sphere? (y/n)",
   "E     : Equilibrium ionization balance.",
   cfg.step_size ++ "  : Step value of the photon absorption fraction  *******",
   "A     : Ionisation bounded, 99% neutral **********",
   "A   : Standard output",
   id_string ++ " : ID string",
   "X   : end model"]

/-- `_build_input_content` up to the final join: the full ordered line list,
or the exception raised while building it. -/
def build_input_lines (cfg : Config) (id_string : String) :
    Except Err (List String) :=
  match dust_section cfg with
  | .error e => .error e
  | .ok dust => .ok (pre_dust_lines cfg ++ dust ++ post_dust_lines cfg id_string)

/-- `_build_input_content`: the joined text with a trailing newline. -/
def build_input_content (cfg : Config) (id_string : String) : Except Err String :=
  match build_input_lines cfg id_string with
  | .error e => .error e
  | .ok ls => .ok (String.intercalate "\n" ls ++ "\n")

/-- The compiled line appears in the successful output. -/
def emitsB (cfg : Config) (id_string line : String) : Bool :=
  match build_input_lines cfg id_string with
  | .ok ls => ls.contains line
  | .error _ => false

/-- Compilation succeeds and the given line is among the emitted lines. -/
def emits (cfg : Config) (id_string line : String) : Prop :=
  ∃ ls, build_input_lines cfg id_string = .ok ls ∧ line ∈ ls

def base_dir (home : String) : String := home ++ "/mappings520/lab/"

def full_path_of (home : String) (cfg : Config) (filename : Option String) : String :=
  ospath_join (base_dir home) (filename.getD (cfg.model_name ++ ".mv"))

def id_of (cfg : Config) (id_string : Option String) : String :=
  id_string.getD (generate_id_string cfg)

/-- `write_input_file`: resolves the destination under the base directory,
builds the content, and writes it. The write models `open(full_path, "w")`:
it succeeds exactly when the parent directory already exists (the method
contains no directory creation) and otherwise raises the wrapped `IOError`. -/
def write_input_file (home : String) (fs : FileSys) (cfg : Config)
    (filename : Option String) (id_string : Option String) :
    FileSys × Except Err String :=
  let full_path := full_path_of home cfg filename
  match build_input_content cfg (id_of cfg id_string) with
  | .error e => (fs, .error e)
  | .ok content =>
    if fs.dirs.contains (dirname full_path) then
      (writeFile fs full_path content, .ok full_path)
    else
      (fs, .error (Err.ioError ("Failed to write input file: " ++ full_path)))

/-- Subsequence test on line lists (ordered containment, not contiguous). -/
def isSubseqOf : List String → List String → Bool
  | [], _ => true
  | _ :: _, [] => false
  | a :: as, b :: bs =>
    if a = b then isSubseqOf as bs else isSubseqOf (a :: as) bs

/-- Canonical 2-decimal form: some dot-free integer part followed by a dot and
two digit characters (the shape of every `f"\x7bx:.2f\x7d"` result). -/
def IsCanonical2 (s : String) : Prop :=
  ∃ ip b c, s.data = ip ++ ['.', b, c] ∧ '.' ∉ ip ∧ b.isDigit ∧ c.isDigit

/-- The configuration of the end-to-end scenario: name `n159`, dust disabled,
everything else at its construction default. -/
def c5_cfg : Config := (disable_dust emptyFS (init_params "n159")).1

def c5_output : List String :=
  (build_input_lines c5_cfg (generate_id_string c5_cfg)).toOption.getD []

/-- The markers the end-to-end scenario requires, in the required order. -/
def c5_markers : List String :=
  ["no    : use default abundance",
   "no    : no offsets",
   "no    : include dust",
   "P6    : the main Mappings model to use",
   "D     : Default ionisation values",
   "H     : Input spectral energy distribution data (usually Starburst99)",
   "Q/inputs/cont_a05t23isp_vm802.spectrum  : default spectrum",
   "9     : Age of the HII region. Age = (n-1)*0.5 Myr",
   "S     : Spherical Geometry. (For Plane parallel, \x27P\x27, different options)",
   "40.00    : bolometric source luminosity (log erg/s)",
   "6.00 :  Pressure regime (p/k, <10 as log)",
   "4.00     : log(Initial temperature)",
   "1.0     : filling factor (0<f<=1)",
   "8.00 :   Q at inner radius (< 100 as log)",
   "0.0200  : Step value of the photon absorption fraction  *******",
   "X   : end model"]

/-- Every line the dust block can emit for the default dust parameters (both
branches of each conditional): the dust-related lines that must be absent. -/
def c5_dust_related : List String :=
  ["yes   : change depletions",
   "no    : use default depletions",
   "yes   : allow grain destruction",
   "no    : allow grain destruction",
   "M     : MRN distribution",
   "yes   : Include PAH molecules?",
   "0.3   : fraction of Carbon Dust Depletion in PAHs",
   "Q     : PAH switch on QHDH < Value",
   "4e2   : PAH switch on Value",
   "yes   : graphite grains to be cospatial with PAHs",
   "no    : graphite grains to be cospatial with PAHs",
   "yes   : Evaluate dust temperatures and IR flux?",
   "no    : Evaluate dust temperatures and IR flux?"]

/-- Filesystem on which the dust depletion file `dust.txt` exists. -/
def c4_fs : FileSys := ⟨[], [("dust.txt", "data")]⟩

/-- Configuration after `enable_dust("dust.txt")` with the wrapper defaults. -/
def c4_cfg : Config :=
  (enable_dust c4_fs (init_params "m") "dust.txt" pah_default "4e2"
    false false false "M").1

/-- The state after `disable_dust()` on a fresh model (dust flag off). -/
def c3_cfg0 : Config := (disable_dust emptyFS (init_params "m")).1

/-- Filesystem in which the lab base directory exists for home `/h`. -/
def c6_fs : FileSys := ⟨["/h/mappings520/lab"], []⟩

def c6_content : String :=
  (build_input_content (init_params "n") (id_of (init_params "n") none)).toOption.getD ""

theorem digitsFuel_eq_digits : ∀ fuel n : Nat, n ≤ fuel → digitsFuel fuel n = Nat.digits 10 n := by
  intro fuel
  induction fuel with
  | zero =>
    intro n h
    have : n = 0 := Nat.le_zero.mp h
    subst this
    simp [digitsFuel]
  | succ f ih =>
    intro n h
    by_cases h0 : n = 0
    · subst h0; simp [digitsFuel]
    · rw [digitsFuel, if_neg h0, Nat.digits_def' (by norm_num) (Nat.pos_of_ne_zero h0)]
      have hdiv : n / 10 < n := Nat.div_lt_self (Nat.pos_of_ne_zero h0) (by norm_num)
      rw [ih (n / 10) (by omega)]

theorem digitChar_inj_lt : ∀ a < 10, ∀ b < 10, Nat.digitChar a = Nat.digitChar b → a = b := by
  decide

theorem map_digitChar_inj : ∀ l₁ l₂ : List Nat, (∀ x ∈ l₁, x < 10) → (∀ x ∈ l₂, x < 10) →
    l₁.map Nat.digitChar = l₂.map Nat.digitChar → l₁ = l₂ := by
  intro l₁
  induction l₁ with
  | nil => intro l₂ _ _ h; cases l₂ with
    | nil => rfl
    | cons b bs => simp at h
  | cons a as ih =>
    intro l₂ h₁ h₂ h
    cases l₂ with
    | nil => simp at h
    | cons b bs =>
      simp only [List.map_cons, List.cons.injEq] at h
      have ha : a = b :=
        digitChar_inj_lt a (h₁ a (by simp)) b (h₂ b (by simp)) h.1
      subst ha
      rw [ih bs (fun x hx => h₁ x (by simp [hx])) (fun x hx => h₂ x (by simp [hx])) h.2]

theorem pyNatStr_digits (n : Nat) (h : n ≠ 0) :
    pyNatStr n = ((Nat.digits 10 n).reverse.map Nat.digitChar).asString := by
  rw [pyNatStr, if_neg h, digitsFuel_eq_digits n n le_rfl]

theorem pyNatStr_ne_zero_str (n : Nat) (h : n ≠ 0) : pyNatStr n ≠ "0" := by
  rw [pyNatStr_digits n h]
  intro hc
  have h0 : ((Nat.digits 10 n).reverse.map Nat.digitChar) = ['0'] :=
    List.asString_inj.mp hc
  have hrev : (Nat.digits 10 n).map Nat.digitChar = ['0'] := by
    have := congrArg List.reverse h0
    simpa [List.map_reverse] using this
  obtain ⟨d, hd⟩ : ∃ d, Nat.digits 10 n = [d] := by
    cases hds : Nat.digits 10 n with
    | nil => rw [hds] at hrev; simp at hrev
    | cons d ds =>
      rw [hds] at hrev
      simp only [List.map_cons, List.cons.injEq] at hrev
      have hnil : ds = [] := by simpa using hrev.2
      exact ⟨d, by rw [hnil]⟩
  have hdmem : d ∈ Nat.digits 10 n := by simp [hd]
  have hdlt : d < 10 := Nat.digits_lt_base (by norm_num) hdmem
  have hdc : Nat.digitChar d = '0' := by
    rw [hd] at hrev; simpa using hrev
  have hd0 : d = 0 := digitChar_inj_lt d hdlt 0 (by norm_num) (by simpa using hdc)
  have hlast := Nat.getLast_digit_ne_zero 10 h
  revert hlast
  simp [hd, hd0]

theorem pyNatStr_inj (m n : Nat) (h : pyNatStr m = pyNatStr n) : m = n := by
  by_cases hm : m = 0 <;> by_cases hn : n = 0
  · rw [hm, hn]
  · subst hm
    exact absurd h.symm (pyNatStr_ne_zero_str n hn)
  · subst hn
    exact absurd h (pyNatStr_ne_zero_str m hm)
  · rw [pyNatStr_digits m hm, pyNatStr_digits n hn] at h
    have h₁ := List.asString_inj.mp h
    have h₂ : Nat.digits 10 m = Nat.digits 10 n := by
      refine List.reverse_injective (map_digitChar_inj _ _ ?_ ?_ h₁) <;>
        exact fun x hx =>
          Nat.digits_lt_base (by norm_num) (List.mem_reverse.mp hx)
    rw [← Nat.ofDigits_digits 10 m, ← Nat.ofDigits_digits 10 n, h₂]

theorem pyIntStr_inj_nonneg (a b : Int) (ha : 0 ≤ a) (hb : 0 ≤ b)
    (h : pyIntStr a = pyIntStr b) : a = b := by
  obtain ⟨m, rfl⟩ := Int.eq_ofNat_of_zero_le ha
  obtain ⟨n, rfl⟩ := Int.eq_ofNat_of_zero_le hb
  have : m = n := pyNatStr_inj m n h
  rw [this]

theorem removeDots_canonical_inj (s t : String) (hs : IsCanonical2 s)
    (ht : IsCanonical2 t) (h : removeDots s = removeDots t) : s = t := by
  obtain ⟨ip, b, c, hsd, hip, hbd, hcd⟩ := hs
  obtain ⟨iq, d, e, htd, hiq, hdd, hed⟩ := ht
  have hdot : ∀ x : Char, x.isDigit → (x != '.') = true := by
    intro x hx
    rw [bne_iff_ne]
    rintro rfl
    exact absurd hx (by decide)
  have key : ∀ (l : List Char) (u v : Char), '.' ∉ l → u.isDigit → v.isDigit →
      (l ++ ['.', u, v]).filter (fun x => x != '.') = l ++ [u, v] := by
    intro l u v hl hu hv
    rw [List.filter_append]
    congr 1
    · exact List.filter_eq_self.mpr fun x hx => by
        rw [bne_iff_ne]; rintro rfl; exact hl hx
    · simp [hdot u hu, hdot v hv]
  have hds : (removeDots s).data = ip ++ [b, c] := by
    show (s.data.filter (fun x => x != '.')) = ip ++ [b, c]
    rw [hsd, key ip b c hip hbd hcd]
  have hdt : (removeDots t).data = iq ++ [d, e] := by
    show (t.data.filter (fun x => x != '.')) = iq ++ [d, e]
    rw [htd, key iq d e hiq hdd hed]
  have hlists : ip ++ [b, c] = iq ++ [d, e] := by
    rw [← hds, ← hdt, h]
  obtain ⟨h₁, h₂⟩ := List.append_inj' hlists (by simp)
  apply String.ext
  rw [hsd, htd, h₁, h₂]

/-- Decomposition of the identifier into its data, fully right-associated, for
segment-cancellation arguments. -/
theorem gen_data (cfg : Config) : (generate_id_string cfg).data =
    (if cfg.geometry = "S" then "SPH" else "PP").data ++
      ("_".data ++ (cfg.model_name.data ++ ("_".data ++ ("Q".data ++
        ((removeDots cfg.logq).data ++ ("_".data ++ ("Pk".data ++
          (cfg.pressure.data ++ ("_".data ++ ("t".data ++
            (pyIntStr cfg.age_index).data)))))))))) := by
  simp [generate_id_string, String.data_append, List.append_assoc]

/-- C9: the auto-generated identifier is a function of the parameters, and
changing exactly one of geometry, ionization parameter, pressure or age index
to a different canonical value (all other fields fixed) changes it. -/
theorem c9_identifier :
    (∀ c₁ c₂ : Config, c₁ = c₂ → generate_id_string c₁ = generate_id_string c₂) ∧
    (∀ cfg g, cfg.geometry ∈ (["S", "P"] : List String) →
      g ∈ (["S", "P"] : List String) → g ≠ cfg.geometry →
      generate_id_string { cfg with geometry := g } ≠ generate_id_string cfg) ∧
    (∀ cfg q, IsCanonical2 cfg.logq → IsCanonical2 q → q ≠ cfg.logq →
      generate_id_string { cfg with logq := q } ≠ generate_id_string cfg) ∧
    (∀ cfg p, p ≠ cfg.pressure →
      generate_id_string { cfg with pressure := p } ≠ generate_id_string cfg) ∧
    (∀ cfg a, 0 ≤ cfg.age_index → 0 ≤ a → a ≠ cfg.age_index →
      generate_id_string { cfg with age_index := a } ≠ generate_id_string cfg) := by
  refine ⟨fun c₁ c₂ h => by rw [h], ?_, ?_, ?_, ?_⟩
  · intro cfg g hmem₁ hmem₂ hne heq
    simp only [List.mem_cons, List.not_mem_nil, or_false] at hmem₁ hmem₂
    have hd := congrArg String.data heq
    rw [gen_data, gen_data] at hd
    dsimp only at hd
    rcases hmem₂ with h₂ | h₂ <;> rcases hmem₁ with h₁ | h₁
    · exact hne (h₂.trans h₁.symm)
    · rw [h₁, h₂] at hd; simp at hd
    · rw [h₁, h₂] at hd; simp at hd
    · exact hne (h₂.trans h₁.symm)
  · intro cfg q hc₁ hc₂ hne heq
    have hd := congrArg String.data heq
    rw [gen_data, gen_data] at hd
    dsimp only at hd
    have h₁ := List.append_cancel_left hd
    have h₂ := List.append_cancel_left h₁
    have h₃ := List.append_cancel_left h₂
    have h₄ := List.append_cancel_left h₃
    have h₅ := List.append_cancel_left h₄
    have h₆ := List.append_cancel_right h₅
    exact hne (removeDots_canonical_inj q cfg.logq hc₂ hc₁ (String.ext h₆))
  · intro cfg p hne heq
    have hd := congrArg String.data heq
    rw [gen_data, gen_data] at hd
    dsimp only at hd
    have h₁ := List.append_cancel_left hd
    have h₂ := List.append_cancel_left h₁
    have h₃ := List.append_cancel_left h₂
    have h₄ := List.append_cancel_left h₃
    have h₅ := List.append_cancel_left h₄
    have h₆ := List.append_cancel_left h₅
    have h₇ := List.append_cancel_left h₆
    have h₈ := List.append_cancel_left h₇
    have h₉ := List.append_cancel_right h₈
    exact hne (String.ext h₉)
  · intro cfg a ha₁ ha₂ hne heq
    have hd := congrArg String.data heq
    rw [gen_data, gen_data] at hd
    dsimp only at hd
    have h₁ := List.append_cancel_left hd
    have h₂ := List.append_cancel_left h₁
    have h₃ := List.append_cancel_left h₂
    have h₄ := List.append_cancel_left h₃
    have h₅ := List.append_cancel_left h₄
    have h₆ := List.append_cancel_left h₅
    have h₇ := List.append_cancel_left h₆
    have h₈ := List.append_cancel_left h₇
    have h₉ := List.append_cancel_left h₈
    have h₁₀ := List.append_cancel_left h₉
    have h₁₁ := List.append_cancel_left h₁₀
    exact hne (pyIntStr_inj_nonneg a cfg.age_index ha₂ ha₁ (String.ext h₁₁))

theorem c9_identifier_witness :
    generate_id_string (init_params "w9") = generate_id_string (init_params "w9") ∧
    generate_id_string { init_params "w9" with geometry := "P" }
      ≠ generate_id_string (init_params "w9") ∧
    generate_id_string { init_params "w9" with logq := "7.00" }
      ≠ generate_id_string (init_params "w9") ∧
    generate_id_string { init_params "w9" with pressure := "6.50" }
      ≠ generate_id_string (init_params "w9") ∧
    generate_id_string { init_params "w9" with age_index := 10 }
      ≠ generate_id_string (init_params "w9") := by
  refine ⟨c9_identifier.1 (init_params "w9") (init_params "w9") rfl, ?_, ?_, ?_, ?_⟩
  · exact c9_identifier.2.1 (init_params "w9") "P" (by decide) (by decide) (by decide)
  · exact c9_identifier.2.2.1 (init_params "w9") "7.00"
      ⟨['8'], '0', '0', rfl, by decide, by decide, by decide⟩
      ⟨['7'], '0', '0', rfl, by decide, by decide, by decide⟩ (by decide)
  · exact c9_identifier.2.2.2.1 (init_params "w9") "6.50" (by decide)
  · exact c9_identifier.2.2.2.2 (init_params "w9") 10 (by decide) (by decide) (by decide)

theorem set_dust_requires_path (fs : FileSys) (cfg : Config) (pf : Option ℚ)
    (psv : Option String) (edt gc agd : Option Bool) (gd : Option String)
    (h : cfg.dust_depl_path = none) :
    set_dust fs cfg true none pf psv edt gc agd gd
      = ({ cfg with include_dust := true },
         some (Err.valueError "Dust depletion file path is required when including dust")) := by
  simp [set_dust, h]

/-- C1 (counterexample): `set_grain_distribution` accepts the valid code `S`,
yet compiling with dust enabled then fails with `KeyError` — a compile-time
failure caused by a grain-distribution value inside the 3 valid codes. -/
theorem c1_counterexample :
    (set_grain_distribution (init_params "m") "S").2 = none ∧
    (set_grain_distribution (init_params "m") "S").1.grain_distribution = "S" ∧
    (set_grain_distribution (init_params "m") "S").1.include_dust = true ∧
    build_input_lines (set_grain_distribution (init_params "m") "S").1 "x"
      = .error (Err.keyError "S") :=
  ⟨rfl, rfl, rfl, rfl⟩

/-- C1 (amended): with dust enabled, compilation emits the grain-distribution
token only for the code `M`; for any other stored value — including the valid
setter codes `P` and `S` — it fails with a `KeyError` carrying that value. -/
theorem c1_grain_compile (cfg : Config) (id_string : String)
    (hd : cfg.include_dust = true) :
    (cfg.grain_distribution = "M" →
      emits cfg id_string "M     : MRN distribution") ∧
    (cfg.grain_distribution ≠ "M" →
      build_input_lines cfg id_string = .error (Err.keyError cfg.grain_distribution)) := by
  constructor
  · intro hM
    simp only [emits, build_input_lines, dust_section, distribution_map, hd, hM,
      if_true, if_pos rfl]
    exact ⟨_, rfl, by simp⟩
  · intro hN
    simp only [build_input_lines, dust_section, distribution_map, hd, if_true,
      if_neg hN]

theorem c1_grain_compile_witness :
    (init_params "w1").include_dust = true ∧
    emits (init_params "w1") "x" "M     : MRN distribution" :=
  ⟨rfl, (c1_grain_compile (init_params "w1") "x" rfl).1 rfl⟩

/-- C2 (counterexample): a freshly constructed model already has dust enabled
with no dust depletion file, and compiling it succeeds, emitting the
default-depletions token instead of failing with a validation error. -/
theorem c2_counterexample :
    (init_params "m").include_dust = true ∧
    (init_params "m").dust_depl_path = none ∧
    (build_input_lines (init_params "m") "x").isOk = true ∧
    emitsB (init_params "m") "x" "no    : use default depletions" = true := by
  refine ⟨rfl, rfl, ?_, ?_⟩ <;> decide

/-- C2 (amended): enabling dust with no depletion path (and none previously
stored) raises `ValueError` inside `set_dust`; but if that state is reached
anyway, compilation performs no re-check: with the default grain code it
succeeds and emits the default-depletions token. -/
theorem c2_amended :
    (∀ fs cfg pf psv edt gc agd gd, cfg.dust_depl_path = none →
      set_dust fs cfg true none pf psv edt gc agd gd
        = ({ cfg with include_dust := true },
           some (Err.valueError "Dust depletion file path is required when including dust"))) ∧
    (∀ cfg id_string, cfg.include_dust = true → cfg.dust_depl_path = none →
      cfg.depl = none → cfg.grain_distribution = "M" →
      emits cfg id_string "no    : use default depletions") := by
  constructor
  · intro fs cfg pf psv edt gc agd gd h
    exact set_dust_requires_path fs cfg pf psv edt gc agd gd h
  · intro cfg id_string hdust _ hdepl hM
    simp only [emits, build_input_lines, dust_section, distribution_map, hdust,
      hdepl, hM, if_true, if_pos rfl]
    exact ⟨_, rfl, by simp⟩

theorem c2_amended_witness :
    set_dust emptyFS (init_params "w2") true none none none none none none none
      = ({ init_params "w2" with include_dust := true },
         some (Err.valueError "Dust depletion file path is required when including dust")) ∧
    emits (init_params "w2") "x" "no    : use default depletions" :=
  ⟨c2_amended.1 emptyFS (init_params "w2") none none none none none none rfl,
   c2_amended.2 (init_params "w2") "x" rfl rfl rfl rfl⟩

/-- C3 (counterexample): after `disable_dust()`, calling `set_dust(True)` with
no depletion path raises, but the state is not the prior state: the
dust-enabled flag has already been flipped to `True`. -/
theorem c3_counterexample :
    (set_dust emptyFS c3_cfg0 true none none none none none none none).2
      = some (Err.valueError "Dust depletion file path is required when including dust") ∧
    (set_dust emptyFS c3_cfg0 true none none none none none none none).1 ≠ c3_cfg0 := by
  refine ⟨rfl, ?_⟩
  decide

/-- C3 (amended): every setter except `set_dust` leaves the state unchanged
when it raises; `set_dust` assigns the dust-enabled flag before validating, so
the cited call raises with the flag already set to `True` and every other
field at its prior value. -/
theorem c3_amended :
    (∀ fs cfg p c e, set_abund fs cfg p = (c, some e) → c = cfg) ∧
    (∀ fs cfg p c e, set_depl fs cfg p = (c, some e) → c = cfg) ∧
    (∀ fs cfg p c e, set_spec fs cfg p = (c, some e) → c = cfg) ∧
    (∀ cfg i c e, set_age cfg i = (c, some e) → c = cfg) ∧
    (∀ cfg g c e, set_geometry cfg g = (c, some e) → c = cfg) ∧
    (∀ cfg s c e, set_step_size cfg s = (c, some e) → c = cfg) ∧
    (∀ cfg d c e, set_grain_distribution cfg d = (c, some e) → c = cfg) ∧
    (∀ fs cfg pf psv edt gc agd gd, cfg.dust_depl_path = none →
      set_dust fs cfg true none pf psv edt gc agd gd
        = ({ cfg with include_dust := true },
           some (Err.valueError "Dust depletion file path is required when including dust"))) := by
  refine ⟨?_, ?_, ?_, ?_, ?_, ?_, ?_,
    fun fs cfg pf psv edt gc agd gd h =>
      set_dust_requires_path fs cfg pf psv edt gc agd gd h⟩
  · intro fs cfg p c e h
    cases p with
    | none => simp [set_abund] at h
    | some q =>
      by_cases hex : path_exists fs q = true
      · simp [set_abund, hex] at h
      · simp [set_abund, hex] at h; exact h.1.symm
  · intro fs cfg p c e h
    cases p with
    | none => simp [set_depl] at h
    | some q =>
      by_cases hex : path_exists fs q = true
      · simp [set_depl, hex] at h
      · simp [set_depl, hex] at h; exact h.1.symm
  · intro fs cfg p c e h
    cases p with
    | none => simp [set_spec] at h
    | some q =>
      by_cases hex : path_exists fs q = true
      · simp [set_spec, hex] at h
      · simp [set_spec, hex] at h; exact h.1.symm
  · intro cfg i c e h
    cases i with
    | none => simp [set_age] at h
    | some j =>
      by_cases hlt : j < 0
      · simp [set_age, hlt] at h; exact h.1.symm
      · simp [set_age, hlt] at h
  · intro cfg g c e h
    cases g with
    | none => simp [set_geometry] at h
    | some s =>
      by_cases hmem : pyUpper s ∈ (["S", "P"] : List String)
      · simp [set_geometry, hmem] at h
      · simp [set_geometry, hmem] at h; exact h.1.symm
  · intro cfg s c e h
    cases s with
    | none => simp [set_step_size] at h
    | some q =>
      by_cases hle : q.num ≤ 0
      · simp [set_step_size, hle] at h; exact h.1.symm
      · simp [set_step_size, hle] at h
  · intro cfg d c e h
    by_cases hmem : pyUpper d ∈ (["M", "P", "S"] : List String)
    · simp [set_grain_distribution, step_grain, hmem] at h
    · simp [set_grain_distribution, step_grain, hmem] at h; exact h.1.symm

theorem c3_amended_witness :
    (set_abund emptyFS (init_params "w3") (some "missing.txt")).1 = init_params "w3" ∧
    (set_dust emptyFS c3_cfg0 true none none none none none none none).1
      = { c3_cfg0 with include_dust := true } := by
  constructor
  · exact c3_amended.1 emptyFS (init_params "w3") (some "missing.txt")
      (set_abund emptyFS (init_params "w3") (some "missing.txt")).1
      (Err.fileNotFound "Abundance file not found: missing.txt") rfl
  · exact congrArg Prod.fst
      (c3_amended.2.2.2.2.2.2.2 emptyFS c3_cfg0 none none none none none none rfl)

/-- C4 (code bug witnessed): with dust enabled through `enable_dust` and a
stored dust depletion file, the compiled output does not contain the
change-depletions token nor the stored path: the compiler reads the gas-phase
depletion attribute instead, and when that one is set it emits the path with a
stray trailing backslash. -/
theorem c4_dust_depletion_ignored :
    (enable_dust c4_fs (init_params "m") "dust.txt" pah_default "4e2"
      false false false "M").2 = none ∧
    c4_cfg.include_dust = true ∧
    c4_cfg.dust_depl_path = some "dust.txt" ∧
    c4_cfg.depl = none ∧
    emitsB c4_cfg "x" "no    : use default depletions" = true ∧
    emitsB c4_cfg "x" "yes   : change depletions" = false ∧
    emitsB c4_cfg "x" "dust.txt" = false ∧
    emitsB c4_cfg "x" "dust.txt\\" = false ∧
    emitsB { c4_cfg with depl := some "dust.txt" } "x" "yes   : change depletions" = true ∧
    emitsB { c4_cfg with depl := some "dust.txt" } "x" "dust.txt\\" = true ∧
    emitsB { c4_cfg with depl := some "dust.txt" } "x" "dust.txt" = false := by
  decide

/-- C5: the `n159` configuration with dust disabled and every other field at
its default compiles successfully; the compiled lines contain the required
markers in the required order, terminate with the end-model marker, and
contain no dust-related line anywhere. -/
theorem c5_end_to_end :
    c5_cfg.include_dust = false ∧
    build_input_lines c5_cfg (generate_id_string c5_cfg) = .ok c5_output ∧
    isSubseqOf c5_markers c5_output = true ∧
    c5_output.getLast? = some "X   : end model" ∧
    c5_output.all (fun l => !(c5_dust_related.contains l)) = true := by
  refine ⟨rfl, rfl, ?_, rfl, ?_⟩ <;> decide

/-- C6 (counterexample): on a filesystem without the lab directory,
`write_input_file` fails with `IOError` instead of creating the missing parent
directories and writing the requested file. -/
theorem c6_counterexample :
    write_input_file "/h" emptyFS (init_params "n") none none
      = (emptyFS,
         .error (Err.ioError "Failed to write input file: /h/mappings520/lab/n.mv")) :=
  rfl

/-- C6 (amended): `write_input_file` resolves the destination under the base
lab directory; when the parent directory exists it writes exactly the compiled
text there and returns the path, and when it does not it fails with `IOError`
leaving the filesystem unchanged — it never creates parent directories. -/
theorem c6_amended (home : String) (fs : FileSys) (cfg : Config)
    (filename id_string : Option String) (content : String)
    (hc : build_input_content cfg (id_of cfg id_string) = .ok content) :
    (fs.dirs.contains (dirname (full_path_of home cfg filename)) = true →
      write_input_file home fs cfg filename id_string
        = (writeFile fs (full_path_of home cfg filename) content,
           .ok (full_path_of home cfg filename)) ∧
      lookupFile (writeFile fs (full_path_of home cfg filename) content)
        (full_path_of home cfg filename) = some content) ∧
    (fs.dirs.contains (dirname (full_path_of home cfg filename)) = false →
      write_input_file home fs cfg filename id_string
        = (fs, .error (Err.ioError
            ("Failed to write input file: " ++ full_path_of home cfg filename)))) := by
  constructor
  · intro hdir
    constructor
    · simp only [write_input_file, hc, hdir]
      rfl
    · simp [lookupFile, writeFile]
  · intro hdir
    simp only [write_input_file, hc, hdir]
    rfl

theorem c6_amended_witness :
    build_input_content (init_params "n") (id_of (init_params "n") none)
      = .ok c6_content ∧
    write_input_file "/h" c6_fs (init_params "n") none none
      = (writeFile c6_fs (full_path_of "/h" (init_params "n") none) c6_content,
         .ok (full_path_of "/h" (init_params "n") none)) ∧
    lookupFile (writeFile c6_fs (full_path_of "/h" (init_params "n") none) c6_content)
      (full_path_of "/h" (init_params "n") none) = some c6_content :=
  ⟨rfl, (c6_amended "/h" c6_fs (init_params "n") none none c6_content rfl).1 rfl⟩

/-- C7 (code bug witnessed): `set_step_size()` with no argument stores the
string `0.02`, not the canonical 4-decimal default `0.0200` used by
`init_params` and produced by the explicit-value branch, so the compiled
step-size line differs from a freshly constructed configuration. -/
theorem c7_default_not_canonical :
    (set_step_size (init_params "m") none).2 = none ∧
    (set_step_size (init_params "m") none).1.step_size = "0.02" ∧
    (init_params "m").step_size = "0.0200" ∧
    (set_step_size (init_params "m")
      (some (⟨1, 50, by decide, by decide⟩ : ℚ))).1.step_size = "0.0200" ∧
    emitsB (init_params "m") "x"
      "0.0200  : Step value of the photon absorption fraction  *******" = true ∧
    emitsB (set_step_size (init_params "m") none).1 "x"
      "0.0200  : Step value of the photon absorption fraction  *******" = false := by
  refine ⟨rfl, rfl, rfl, by decide, ?_, ?_⟩ <;> decide

/-- C8 (counterexample): a configuration whose stored dust depletion file no
longer exists passes `validate_params`, which therefore does not re-check the
dust depletion path. -/
theorem c8_counterexample :
    ({ init_params "m" with dust_depl_path := some "gone.txt" } : Config).dust_depl_path
      = some "gone.txt" ∧
    path_exists emptyFS "gone.txt" = false ∧
    validate_params emptyFS { init_params "m" with dust_depl_path := some "gone.txt" }
      = .ok true :=
  ⟨rfl, rfl, rfl⟩

/-- C8 (amended): `validate_params` succeeds exactly when every one of the
abundance, depletion and spectrum paths that is set still exists (the dust
depletion file is not re-checked), and on failure it aggregates all missing
files into one combined error instead of stopping at the first. -/
theorem c8_amended (fs : FileSys) (cfg : Config) :
    (validate_params fs cfg = .ok true ↔
      ((∀ a, cfg.abund = some a → path_exists fs a = true) ∧
       (∀ d, cfg.depl = some d → path_exists fs d = true) ∧
       (∀ s, cfg.spec = some s → path_exists fs s = true))) ∧
    (∀ a s, cfg.abund = some a → cfg.depl = none → cfg.spec = some s →
      path_exists fs a = false → path_exists fs s = false →
      validate_params fs cfg = .error (Err.valueError
        ("Parameter validation failed:\n" ++
          ("Abundance file not found: " ++ a) ++ "\n" ++
          ("Spectrum file not found: " ++ s)))) := by
  constructor
  · cases habund : cfg.abund <;> cases hdepl : cfg.depl <;> cases hspec : cfg.spec <;>
      simp only [validate_params, validation_errors, habund, hdepl, hspec] <;>
      split_ifs <;>
      simp_all
  · intro a s ha hd hs hpa hps
    simp only [validate_params, validation_errors, ha, hd, hs, hpa, hps]
    simp [String.intercalate, String.intercalate.go, String.append_assoc]

theorem c8_amended_witness :
    validate_params emptyFS
        { init_params "w8" with abund := some "a.txt", spec := some "s.txt" }
      = .error (Err.valueError
          ("Parameter validation failed:\n" ++
            ("Abundance file not found: " ++ "a.txt") ++ "\n" ++
            ("Spectrum file not found: " ++ "s.txt"))) ∧
    validate_params emptyFS (init_params "w8") = .ok true :=
  ⟨(c8_amended emptyFS _).2 "a.txt" "s.txt" rfl rfl rfl rfl rfl,
   (c8_amended emptyFS (init_params "w8")).1.mpr
     ⟨fun a h => by simp [init_params] at h,
      fun d h => by simp [init_params] at h,
      fun s h => by simp [init_params] at h⟩⟩

theorem step_grain_lower (g : String) (hg : g ∈ (["M", "P", "S"] : List String)) :
    step_grain (some (pyLower g)) = step_grain (some g) := by
  simp only [List.mem_cons, List.not_mem_nil, or_false] at hg
  rcases hg with rfl | rfl | rfl <;> rfl

/-- C10: the geometry and grain-distribution setters are case-insensitive and
canonicalizing: for every accepted code, the lowercase call is equivalent to
the uppercase call, and the stored value is the uppercase code. -/
theorem c10_case_insensitive :
    (∀ cfg g, g ∈ (["S", "P"] : List String) →
      set_geometry cfg (some (pyLower g)) = set_geometry cfg (some g) ∧
      (set_geometry cfg (some g)).1.geometry = g ∧
      (set_geometry cfg (some g)).2 = none) ∧
    (∀ cfg g, g ∈ (["M", "P", "S"] : List String) →
      set_grain_distribution cfg (pyLower g) = set_grain_distribution cfg g ∧
      (set_grain_distribution cfg g).1.grain_distribution = g ∧
      (set_grain_distribution cfg g).2 = none) ∧
    (∀ fs cfg inc dp pf psv edt gc agd g, g ∈ (["M", "P", "S"] : List String) →
      set_dust fs cfg inc dp pf psv edt gc agd (some (pyLower g))
        = set_dust fs cfg inc dp pf psv edt gc agd (some g)) := by
  refine ⟨?_, ?_, ?_⟩
  · intro cfg g hg
    simp only [List.mem_cons, List.not_mem_nil, or_false] at hg
    rcases hg with rfl | rfl <;> exact ⟨rfl, rfl, rfl⟩
  · intro cfg g hg
    have h := step_grain_lower g hg
    refine ⟨congrFun h cfg, ?_, ?_⟩ <;>
      · simp only [List.mem_cons, List.not_mem_nil, or_false] at hg
        rcases hg with rfl | rfl | rfl <;> rfl
  · intro fs cfg inc dp pf psv edt gc agd g hg
    simp only [set_dust]
    rw [step_grain_lower g hg]

theorem c10_case_insensitive_witness :
    set_geometry (init_params "w0") (some "p") = set_geometry (init_params "w0") (some "P") ∧
    (set_geometry (init_params "w0") (some "P")).1.geometry = "P" ∧
    set_grain_distribution (init_params "w0") "s"
      = set_grain_distribution (init_params "w0") "S" ∧
    (set_grain_distribution (init_params "w0") "S").1.grain_distribution = "S" ∧
    set_dust c4_fs (init_params "w0") true (some "dust.txt") none none none none none
        (some "m")
      = set_dust c4_fs (init_params "w0") true (some "dust.txt") none none none none none
        (some "M") := by
  refine ⟨?_, ?_, ?_, ?_, ?_⟩
  · have h := (c10_case_insensitive.1 (init_params "w0") "P" (by decide)).1
    simpa using h
  · exact (c10_case_insensitive.1 (init_params "w0") "P" (by decide)).2.1
  · have h := (c10_case_insensitive.2.1 (init_params "w0") "S" (by decide)).1
    simpa using h
  · exact (c10_case_insensitive.2.1 (init_params "w0") "S" (by decide)).2.1
  · have h := c10_case_insensitive.2.2 c4_fs (init_params "w0") true (some "dust.txt")
      none none none none none "M" (by decide)
    simpa using h

end PyMappings
